import Mathlib

/-!
Shallow embedding of the boostvqe boosting pipeline (src/main.py) and of the
helper routines it calls.  The orchestration loop of `main` in src/main.py is
embedded as explicit state passing over a `LoopState` record whose fields
mirror the Python local variables.  External collaborators (the qibo backend,
the classical optimizer, the circuit ansatz) are abstracted as fields of a
`Backend` record; the helper routines of the repository's own `utils` module
(`train_vqe`, `apply_dbi_steps`, `rotate_h_with_vqe`), whose source file is not
part of the two files under verification, are modelled from the specification.
Scalars are rationals, parameter vectors are lists of rationals, and Python
dicts keyed by the consecutive round indices 0..b-1 are lists indexed by
round.
-/

namespace Boostvqe

/-- The configuration surface of src/main.py's argparse block (lines 172-214):
one field per recognized option, with the argparse defaults irrelevant to the
embedding (every run carries concrete values). Integer-typed options that the
claims exercise at negative values (`nboost`, `dbi_steps`) are `Int`. -/
structure Config where
  backend : String
  platform : Option String
  nthreads : Int
  optimizer : String
  tol : ℚ
  nqubits : ℕ
  nlayers : ℕ
  output_folder : Option String
  nboost : Int
  boost_frequency : Option Int
  dbi_steps : Int
  stepsize : ℚ
  optimize_dbi_step : Bool
  hamiltonian : String

/-- The terminal object of the classical optimizer (`partial_results[2]` in
src/main.py line 129): final loss, success flag, message. -/
structure OptRes where
  fun_ : ℚ
  success : Bool
  message : String

/-- What the black-box classical optimizer returns to the trainer: the
sequence of candidate parameter vectors seen by the callback, the terminal
scalar data, and the trained vqe object (abstract type `V`) used afterwards
for the Hamiltonian rotation. -/
structure OptimizerOut (V : Type) where
  candidates : List (List ℚ)
  fun_ : ℚ
  success : Bool
  message : String
  vqe : V

/-- The external collaborators of the pipeline, abstracted: Hamiltonian
construction and spectra, the seeded Gaussian stream of numpy
(`np.random.seed(SEED)` fixes it, so it is a pure function of the draw index),
circuit parameter count, state preparation and observable evaluation, the
classical optimizer, the circuit loss evaluation, the rotation by the trained
circuit unitary, and one double-bracket flow step.  `H` is the Hamiltonian
type, `V` the trained-vqe type, `S` the state-vector type. -/
structure Backend (H V S : Type) where
  build_hamiltonian : String → ℕ → H
  min_eigenvalue : H → ℚ
  n_circuit_params : ℕ → ℕ → ℕ
  gauss : ℕ → ℚ
  zero_state : ℕ → S
  expectation : H → S → ℚ
  energy_fluctuation : H → S → ℚ
  optimize : H → List ℚ → OptimizerOut V
  loss : H → List ℚ → ℚ × ℚ
  rotate_h : H → V → H
  dbi_step : Bool → H → H
  dbi_energy : H → ℚ
  dbi_fluct : H → ℚ

/-- The seeded initial parameter draw `np.random.randn(n)` of src/main.py line
65: `n` samples of the seeded Gaussian stream. -/
def randn {H V S : Type} (e : Backend H V S) (n : ℕ) : List ℚ :=
  (List.range n).map e.gauss

/-- The error taxonomy the claims mention: `configurationError` for invalid
step counts, `nameError` for Python's NameError when the boosting loop body
never ran and `dbi` is referenced afterwards. -/
inductive AppError where
  | configurationError
  | nameError
deriving DecidableEq

/-- The five-tuple returned by `utils.train_vqe` (src/main.py lines 78-92):
optimizer terminal object, parameter history, loss history, fluctuation
history, trained vqe. -/
structure TrainOut (V : Type) where
  opt_results : OptRes
  params_history : List (List ℚ)
  loss_history : List ℚ
  fluctuations : List ℚ
  vqe : V

/-- Modelled from the spec: `utils.train_vqe` is not among the source files
under verification.  Per the spec the trainer runs the black-box optimizer
from the supplied initial parameter vector and records, per optimizer callback
invocation, the candidate parameter vector together with the Hamiltonian
expectation value and energy fluctuation at that candidate; the trace starts
at the supplied initial vector (the spec requires the round's initial vector
to be the first recorded parameter vector of the round's trace). -/
def train_vqe {H V S : Type} (e : Backend H V S) (h : H) (initial : List ℚ) :
    TrainOut V :=
  let o := e.optimize h initial
  let samples := initial :: o.candidates
  { opt_results := { fun_ := o.fun_, success := o.success, message := o.message }
    params_history := samples
    loss_history := samples.map (fun p => (e.loss h p).1)
    fluctuations := samples.map (fun p => (e.loss h p).2)
    vqe := o.vqe }

/-- The pure flow recursion inside the double-bracket booster: `n` discrete
steps, each applying one flow step and recording energy and fluctuation of the
post-step Hamiltonian, ordered by step index (index 0 is the first post-step
value). -/
def dbiLoop {H : Type} (step : H → H) (ene fluct : H → ℚ) :
    ℕ → H → H × List ℚ × List ℚ
  | 0, h => (h, [], [])
  | n + 1, h =>
      let h1 := step h
      let rest := dbiLoop step ene fluct n h1
      (rest.1, ene h1 :: rest.2.1, fluct h1 :: rest.2.2)

/-- Modelled from the spec: `utils.apply_dbi_steps` is not among the source
files under verification.  Per the spec it is a state machine over `nsteps`
discrete double-bracket flow steps recording per-step energy and fluctuation,
and `nsteps < 0` fails with `ConfigurationError`, reported before any
numerical work begins — so the guard precedes the flow recursion.  The flow
step, the energy and the fluctuation evaluation are the backend's
(`step`, `ene`, `fluct`); `optimize` selects step-size hyperoptimization. -/
def apply_dbi_steps {H : Type} (step : Bool → H → H) (ene fluct : H → ℚ)
    (h : H) (nsteps : Int) (optimize : Bool) :
    Except AppError (H × List ℚ × List ℚ) :=
  if nsteps < 0 then .error .configurationError
  else .ok (dbiLoop (step optimize) ene fluct nsteps.toNat h)

/-- Modelled from the spec: `utils.rotate_h_with_vqe` is not among the source
files under verification.  Per the spec it conjugates the current
Hamiltonian's matrix by the trained circuit's realized unitary,
new_matrix = U† · H · U, a pure deterministic transform of same dimension. -/
def rotate_h_with_vqe {n : ℕ} {R : Type} [Ring R] [StarRing R]
    (U H : Matrix (Fin n) (Fin n) R) : Matrix (Fin n) (Fin n) R :=
  Matrix.conjTranspose U * H * U

/-- Python's builtin truthiness of a string, which argparse applies to the
command-line token when an option is declared with `type=bool`: every
non-empty string is truthy, only the empty string is falsy. -/
def pyBool (s : String) : Bool := !s.isEmpty

/-- The parsing of `--optimize_dbi_step` (src/main.py lines 202-207):
`type=bool`, `default=False`.  `none` is the omitted flag (the default is
taken); `some s` is a supplied string value, converted by Python's `bool`. -/
def parse_optimize_dbi_step (arg : Option String) : Bool :=
  match arg with
  | none => false
  | some s => pyBool s

/-- The local variables of `main`'s boosting loop (src/main.py lines 63-120),
as a state record threaded through the rounds: the evolving Hamiltonian
`new_hamiltonian`, the vector `initial_parameters` the next training call
receives, the five history dicts (keyed by the consecutive round indices, so
embedded as lists indexed by round), and the variables set only inside the
loop body — the dbi object's Hamiltonian `dbiH` and the optimizer terminal
object `opt_results` — which are `none` while no round has run (referencing
them then is Python's NameError). -/
structure LoopState (H : Type) where
  new_hamiltonian : H
  initial_parameters : List ℚ
  params_history : List (List (List ℚ))
  loss_history : List (List ℚ)
  fluctuations : List (List ℚ)
  boost_energies : List (List ℚ)
  boost_fluctuations_dbi : List (List ℚ)
  dbiH : Option H
  opt_results : Option OptRes

/-- The state before round 0 (src/main.py lines 54-72): the named Hamiltonian
is built, the circuit drawn, the numpy seed fixed and the initial parameters
drawn from the seeded stream, all histories empty. -/
def initState {H V S : Type} (e : Backend H V S) (cfg : Config) : LoopState H :=
  { new_hamiltonian := e.build_hamiltonian cfg.hamiltonian cfg.nqubits
    initial_parameters := randn e (e.n_circuit_params cfg.nqubits cfg.nlayers)
    params_history := []
    loss_history := []
    fluctuations := []
    boost_energies := []
    boost_fluctuations_dbi := []
    dbiH := none
    opt_results := none }

/-- One round of the boosting loop (src/main.py lines 73-120): train the vqe
on the current Hamiltonian from the current initial parameters, rotate the
Hamiltonian by the trained circuit, apply `dbi_steps` double-bracket steps,
append the round's traces to the histories, and reset the initial parameters
to the zero vector of the same length (`np.zeros(len(initial_parameters))`,
line 120). -/
def roundStep {H V S : Type} (e : Backend H V S) (cfg : Config)
    (s : LoopState H) : Except AppError (LoopState H) :=
  let t := train_vqe e s.new_hamiltonian s.initial_parameters
  let rotated := e.rotate_h s.new_hamiltonian t.vqe
  match apply_dbi_steps e.dbi_step e.dbi_energy e.dbi_fluct rotated
      cfg.dbi_steps cfg.optimize_dbi_step with
  | .error err => .error err
  | .ok out =>
      .ok { new_hamiltonian := out.1
            initial_parameters := List.replicate s.initial_parameters.length 0
            params_history := s.params_history ++ [t.params_history]
            loss_history := s.loss_history ++ [t.loss_history]
            fluctuations := s.fluctuations ++ [t.fluctuations]
            boost_energies := s.boost_energies ++ [out.2.1]
            boost_fluctuations_dbi := s.boost_fluctuations_dbi ++ [out.2.2]
            dbiH := some out.1
            opt_results := some t.opt_results }

/-- One round of the boosting loop when the step-count guard cannot fire:
the same computation as `roundStep` with the `Except` layer stripped. -/
def pureRound {H V S : Type} (e : Backend H V S) (cfg : Config)
    (s : LoopState H) : LoopState H :=
  let t := train_vqe e s.new_hamiltonian s.initial_parameters
  let rotated := e.rotate_h s.new_hamiltonian t.vqe
  let out := dbiLoop (e.dbi_step cfg.optimize_dbi_step) e.dbi_energy
    e.dbi_fluct cfg.dbi_steps.toNat rotated
  { new_hamiltonian := out.1
    initial_parameters := List.replicate s.initial_parameters.length 0
    params_history := s.params_history ++ [t.params_history]
    loss_history := s.loss_history ++ [t.loss_history]
    fluctuations := s.fluctuations ++ [t.fluctuations]
    boost_energies := s.boost_energies ++ [out.2.1]
    boost_fluctuations_dbi := s.boost_fluctuations_dbi ++ [out.2.2]
    dbiH := some out.1
    opt_results := some t.opt_results }

/-- The loop state after `b` rounds, `Except`-layered: round `b+1` runs only
on round `b`'s output (the strict data dependency of the spec). -/
def statesAfter {H V S : Type} (e : Backend H V S) (cfg : Config) :
    ℕ → Except AppError (LoopState H)
  | 0 => .ok (initState e cfg)
  | b + 1 =>
      match statesAfter e cfg b with
      | .error err => .error err
      | .ok s => roundStep e cfg s

/-- The loop state after `b` rounds of `pureRound`. -/
def pureStates {H V S : Type} (e : Backend H V S) (cfg : Config) :
    ℕ → LoopState H
  | 0 => initState e cfg
  | b + 1 => pureRound e cfg (pureStates e cfg b)

/-- The persisted outcome of a run (src/main.py lines 122-164): the
configuration fields plus the scalar metadata of `output_dict.update`
(best_loss, true_ground_energy, success, message, energy, fluctuations) and
the five per-round history containers. -/
structure RunResult where
  config : Config
  best_loss : ℚ
  true_ground_energy : ℚ
  success : Bool
  message : String
  energy : ℚ
  fluctuations : ℚ
  loss_history : List (List ℚ)
  fluct_history : List (List ℚ)
  params_history : List (List (List ℚ))
  dbi_energies : List (List ℚ)
  dbi_fluctuations : List (List ℚ)

/-- The epilogue of `main` after the loop (src/main.py lines 122-164):
evaluate final energy and energy fluctuation of the dbi object's Hamiltonian
against the all-zero computational basis state `zero_state` (lines 122-124)
and assemble the persisted record, whose `true_ground_energy` is the minimum
eigenvalue of the original Hamiltonian computed at line 55, before the loop.
When the loop body never ran, the references to `dbi` and `partial_results`
after the loop raise NameError. -/
def finalize {H V S : Type} (e : Backend H V S) (cfg : Config)
    (s : LoopState H) : Except AppError RunResult :=
  match s.dbiH, s.opt_results with
  | some dh, some pr =>
      .ok { config := cfg
            best_loss := pr.fun_
            true_ground_energy :=
              e.min_eigenvalue (e.build_hamiltonian cfg.hamiltonian cfg.nqubits)
            success := pr.success
            message := pr.message
            energy := e.expectation dh (e.zero_state cfg.nqubits)
            fluctuations := e.energy_fluctuation dh (e.zero_state cfg.nqubits)
            loss_history := s.loss_history
            fluct_history := s.fluctuations
            params_history := s.params_history
            dbi_energies := s.boost_energies
            dbi_fluctuations := s.boost_fluctuations_dbi }
  | _, _ => .error .nameError

/-- The embedding of `main` (src/main.py lines 39-168): run the boosting loop
`nboost` times (Python's `range`, so `nboost.toNat` iterations), then
finalize: evaluate the terminal scalars and assemble the persisted record. -/
def main {H V S : Type} (e : Backend H V S) (cfg : Config) :
    Except AppError RunResult :=
  match statesAfter e cfg cfg.nboost.toNat with
  | .error err => .error err
  | .ok s => finalize e cfg s

/-- A concrete configuration used to evaluate the embedding on closed
inputs: one boosting round, one DBI step, no step-size hyperoptimization. -/
def testCfg : Config :=
  { backend := "numpy"
    platform := none
    nthreads := 1
    optimizer := "Powell"
    tol := 1 / 100
    nqubits := 2
    nlayers := 1
    output_folder := none
    nboost := 1
    boost_frequency := none
    dbi_steps := 1
    stepsize := 1 / 100
    optimize_dbi_step := false
    hamiltonian := "XXZ" }

/-- A concrete backend over trivial carrier types, used to evaluate the
embedding on closed inputs. -/
def testE : Backend Unit Unit Unit :=
  { build_hamiltonian := fun _ _ => ()
    min_eigenvalue := fun _ => -2
    n_circuit_params := fun _ _ => 2
    gauss := fun _ => 1
    zero_state := fun _ => ()
    expectation := fun _ _ => -1
    energy_fluctuation := fun _ _ => 0
    optimize := fun _ _ =>
      { candidates := [], fun_ := -1, success := true, message := "done"
        vqe := () }
    loss := fun _ _ => (-1, 0)
    rotate_h := fun h _ => h
    dbi_step := fun _ h => h
    dbi_energy := fun _ => -1
    dbi_fluct := fun _ => 0 }

/-- The run result the embedding produces on the concrete test inputs. -/
def testR : RunResult :=
  { config := testCfg
    best_loss := -1
    true_ground_energy := -2
    success := true
    message := "done"
    energy := -1
    fluctuations := 0
    loss_history := [[-1]]
    fluct_history := [[0]]
    params_history := [[[1, 1]]]
    dbi_energies := [[-1]]
    dbi_fluctuations := [[0]] }

theorem dbiLoop_energies_length {H : Type} (step : H → H) (ene fluct : H → ℚ) :
    ∀ (n : ℕ) (h : H), (dbiLoop step ene fluct n h).2.1.length = n := by
  intro n
  induction n with
  | zero => intro h; rfl
  | succ k ih => intro h; simp [dbiLoop, ih]

theorem dbiLoop_fluct_length {H : Type} (step : H → H) (ene fluct : H → ℚ) :
    ∀ (n : ℕ) (h : H), (dbiLoop step ene fluct n h).2.2.length = n := by
  intro n
  induction n with
  | zero => intro h; rfl
  | succ k ih => intro h; simp [dbiLoop, ih]

theorem roundStep_eq_pure {H V S : Type} (e : Backend H V S) (cfg : Config)
    (hd : 0 ≤ cfg.dbi_steps) (s : LoopState H) :
    roundStep e cfg s = .ok (pureRound e cfg s) := by
  simp only [roundStep, apply_dbi_steps, if_neg (not_lt.mpr hd), pureRound]

theorem statesAfter_eq_pure {H V S : Type} (e : Backend H V S) (cfg : Config)
    (hd : 0 ≤ cfg.dbi_steps) : ∀ b : ℕ,
    statesAfter e cfg b = .ok (pureStates e cfg b) := by
  intro b
  induction b with
  | zero => rfl
  | succ k ih =>
      simp only [statesAfter, ih, pureStates, roundStep_eq_pure e cfg hd]

theorem pureStates_params_length {H V S : Type} (e : Backend H V S)
    (cfg : Config) : ∀ b : ℕ,
    (pureStates e cfg b).initial_parameters.length =
      e.n_circuit_params cfg.nqubits cfg.nlayers := by
  intro b
  induction b with
  | zero => simp [pureStates, initState, randn]
  | succ k ih => simp [pureStates, pureRound, ih]

theorem pureStates_histories_length {H V S : Type} (e : Backend H V S)
    (cfg : Config) : ∀ b : ℕ,
    (pureStates e cfg b).params_history.length = b ∧
    (pureStates e cfg b).loss_history.length = b ∧
    (pureStates e cfg b).fluctuations.length = b ∧
    (pureStates e cfg b).boost_energies.length = b ∧
    (pureStates e cfg b).boost_fluctuations_dbi.length = b := by
  intro b
  induction b with
  | zero => exact ⟨rfl, rfl, rfl, rfl, rfl⟩
  | succ k ih =>
      simp [pureStates, pureRound, ih.1, ih.2.1, ih.2.2.1, ih.2.2.2.1,
        ih.2.2.2.2]

theorem pureStates_dbi_lengths {H V S : Type} (e : Backend H V S)
    (cfg : Config) : ∀ b : ℕ,
    (∀ l ∈ (pureStates e cfg b).boost_energies,
      l.length = cfg.dbi_steps.toNat) ∧
    (∀ l ∈ (pureStates e cfg b).boost_fluctuations_dbi,
      l.length = cfg.dbi_steps.toNat) := by
  intro b
  induction b with
  | zero => exact ⟨fun l hl => absurd hl (List.not_mem_nil l),
      fun l hl => absurd hl (List.not_mem_nil l)⟩
  | succ k ih =>
      constructor
      · intro l hl
        simp only [pureStates, pureRound, List.mem_append,
          List.mem_singleton] at hl
        rcases hl with hl | hl
        · exact ih.1 l hl
        · rw [hl]; exact dbiLoop_energies_length _ _ _ _ _
      · intro l hl
        simp only [pureStates, pureRound, List.mem_append,
          List.mem_singleton] at hl
        rcases hl with hl | hl
        · exact ih.2 l hl
        · rw [hl]; exact dbiLoop_fluct_length _ _ _ _ _

theorem pureStates_dbiH {H V S : Type} (e : Backend H V S) (cfg : Config)
    (k : ℕ) :
    (pureStates e cfg (k + 1)).dbiH =
      some (pureStates e cfg (k + 1)).new_hamiltonian ∧
    (pureStates e cfg (k + 1)).opt_results =
      some (train_vqe e (pureStates e cfg k).new_hamiltonian
        (pureStates e cfg k).initial_parameters).opt_results := by
  exact ⟨rfl, rfl⟩

/-- C2: for every input with nsteps < 0, running the DoubleBracketBooster
(apply_dbi_steps) fails with ConfigurationError, and — since the result is
this error for every choice of flow step, energy evaluation and fluctuation
evaluation — the failure is reported before any numerical work begins. -/
theorem apply_dbi_steps_negative_nsteps {H : Type} (step : Bool → H → H)
    (ene fluct : H → ℚ) (h : H) (nsteps : Int) (opt : Bool)
    (hneg : nsteps < 0) :
    apply_dbi_steps step ene fluct h nsteps opt =
      .error .configurationError := by
  simp [apply_dbi_steps, hneg]

theorem apply_dbi_steps_negative_nsteps_witness :
    apply_dbi_steps (fun _ (u : Unit) => u) (fun _ => 0) (fun _ => 0) () (-1)
      false = .error .configurationError :=
  apply_dbi_steps_negative_nsteps _ _ _ _ _ _ (by decide)

/-- C4: running the DoubleBracketBooster with nsteps = 0 returns the input
Hamiltonian unchanged and empty energy and fluctuation sequences, for every
Hamiltonian, flow step and evaluation functions. -/
theorem apply_dbi_steps_zero_nsteps {H : Type} (step : Bool → H → H)
    (ene fluct : H → ℚ) (h : H) (opt : Bool) :
    apply_dbi_steps step ene fluct h 0 opt = .ok (h, [], []) := rfl

/-- C6: Hamiltonian rotation is the pure conjugation U† · H · U of the
Hamiltonian matrix by the circuit's realized unitary; rotating any Hamiltonian
by a circuit whose unitary is the identity returns the input matrix (of the
same dimension, by typing). -/
theorem rotate_h_with_vqe_conjugation {n : ℕ}
    (U H : Matrix (Fin n) (Fin n) ℂ) :
    rotate_h_with_vqe U H = Matrix.conjTranspose U * H * U ∧
    rotate_h_with_vqe (1 : Matrix (Fin n) (Fin n) ℂ) H = H := by
  refine ⟨rfl, ?_⟩
  simp [rotate_h_with_vqe]

/-- C8: with optimize_dbi_step = false, two runs of the pipeline with
identical backends and identical configurations produce identical outputs:
the embedded run is a deterministic function of its inputs. -/
theorem pipeline_deterministic {H V S : Type} (e1 e2 : Backend H V S)
    (c1 c2 : Config) (he : e1 = e2) (hc : c1 = c2)
    (hopt : c1.optimize_dbi_step = false) :
    main e1 c1 = main e2 c2 := by
  subst he; subst hc; rfl

theorem pipeline_deterministic_witness :
    main testE testCfg = main testE testCfg :=
  pipeline_deterministic testE testE testCfg testCfg rfl rfl rfl

/-- C10: because --optimize_dbi_step is declared with type=bool, every
non-empty string supplied on the command line (including "False" and "0")
yields optimize_dbi_step = true; false is obtained only by omitting the flag
(the default) or passing an empty string. -/
theorem optimize_dbi_step_parsed_truthy :
    (∀ s : String, s ≠ "" → parse_optimize_dbi_step (some s) = true) ∧
    parse_optimize_dbi_step (some "False") = true ∧
    parse_optimize_dbi_step (some "0") = true ∧
    parse_optimize_dbi_step none = false ∧
    parse_optimize_dbi_step (some "") = false := by
  refine ⟨?_, rfl, rfl, rfl, rfl⟩
  intro s hs
  cases hemp : s.isEmpty with
  | false => simp [parse_optimize_dbi_step, pyBool, hemp]
  | true => exact absurd ((String.isEmpty_iff s).mp hemp) hs

theorem optimize_dbi_step_parsed_truthy_witness :
    parse_optimize_dbi_step (some "x") = true :=
  optimize_dbi_step_parsed_truthy.1 "x" (by decide)

/-- C1: round 0's VQE training starts from the seeded random initial
parameters; every round b > 0 is invoked with the zero vector of the length
of the circuit's parameter count, and that zero vector is the first recorded
parameter vector of round b's trace. -/
theorem round_initial_parameters {H V S : Type} (e : Backend H V S)
    (cfg : Config) (b : ℕ) (s : LoopState H) (hd : 0 ≤ cfg.dbi_steps)
    (hs : statesAfter e cfg b = .ok s) :
    (b = 0 → s.initial_parameters =
      randn e (e.n_circuit_params cfg.nqubits cfg.nlayers)) ∧
    (0 < b →
      s.initial_parameters =
        List.replicate (e.n_circuit_params cfg.nqubits cfg.nlayers) 0 ∧
      (train_vqe e s.new_hamiltonian
          s.initial_parameters).params_history.head? =
        some (List.replicate (e.n_circuit_params cfg.nqubits cfg.nlayers) 0)) := by
  rw [statesAfter_eq_pure e cfg hd b] at hs
  injection hs with hs
  subst hs
  constructor
  · rintro rfl; rfl
  · intro hb
    obtain ⟨k, rfl⟩ : ∃ k, b = k + 1 := ⟨b - 1, by omega⟩
    have hlen := pureStates_params_length e cfg k
    have h1 : (pureStates e cfg (k + 1)).initial_parameters =
        List.replicate (e.n_circuit_params cfg.nqubits cfg.nlayers) 0 := by
      simp [pureStates, pureRound, hlen]
    exact ⟨h1, by rw [h1]; rfl⟩

theorem round_initial_parameters_witness :
    (pureStates testE testCfg 1).initial_parameters =
      List.replicate 2 (0 : ℚ) ∧
    (train_vqe testE (pureStates testE testCfg 1).new_hamiltonian
        (pureStates testE testCfg 1).initial_parameters).params_history.head? =
      some (List.replicate 2 (0 : ℚ)) :=
  (round_initial_parameters testE testCfg 1 (pureStates testE testCfg 1)
    (by decide) rfl).2 (by decide)

/-- C3: with nboost >= 1 rounds, each of the five history containers of the
run result holds exactly nboost entries, one per round index 0..nboost-1, and
every recorded DBI-energy and DBI-fluctuation sequence has length exactly
dbi_steps. -/
theorem histories_shape {H V S : Type} (e : Backend H V S) (cfg : Config)
    (r : RunResult) (hb : 1 ≤ cfg.nboost) (hd : 0 ≤ cfg.dbi_steps)
    (hr : main e cfg = .ok r) :
    r.loss_history.length = cfg.nboost.toNat ∧
    r.fluct_history.length = cfg.nboost.toNat ∧
    r.params_history.length = cfg.nboost.toNat ∧
    r.dbi_energies.length = cfg.nboost.toNat ∧
    r.dbi_fluctuations.length = cfg.nboost.toNat ∧
    (∀ l ∈ r.dbi_energies, l.length = cfg.dbi_steps.toNat) ∧
    (∀ l ∈ r.dbi_fluctuations, l.length = cfg.dbi_steps.toNat) := by
  obtain ⟨k, hk⟩ : ∃ k, cfg.nboost.toNat = k + 1 :=
    ⟨cfg.nboost.toNat - 1, by omega⟩
  unfold main at hr
  split at hr
  · exact absurd hr (by simp)
  case _ s heq =>
    rw [statesAfter_eq_pure e cfg hd] at heq
    injection heq with heq
    subst heq
    unfold finalize at hr
    split at hr
    case _ dh pr hdh hpr =>
      injection hr with hr
      subst hr
      have hlen := pureStates_histories_length e cfg cfg.nboost.toNat
      have hdl := pureStates_dbi_lengths e cfg cfg.nboost.toNat
      exact ⟨hlen.2.1, hlen.2.2.1, hlen.1, hlen.2.2.2.1, hlen.2.2.2.2,
        hdl.1, hdl.2⟩
    case _ hno =>
      exact absurd hr (by simp)

theorem histories_shape_witness :
    main testE testCfg = .ok testR ∧
    testR.loss_history.length = 1 ∧ testR.fluct_history.length = 1 ∧
    testR.params_history.length = 1 ∧ testR.dbi_energies.length = 1 ∧
    testR.dbi_fluctuations.length = 1 := by
  refine ⟨rfl, ?_⟩
  have h := histories_shape testE testCfg testR (by decide) (by decide) rfl
  exact ⟨h.1, h.2.1, h.2.2.1, h.2.2.2.1, h.2.2.2.2.1⟩

/-- C5: after the last of the nboost rounds, the final recorded energy and
energy fluctuation are obtained by evaluating the last DBI-output Hamiltonian
against the all-zero computational basis state `zero_state` — the loop's
final Hamiltonian, which is exactly the output of the last round's
double-bracket flow, and no other state enters the evaluation. -/
theorem final_energy_from_zero_state {H V S : Type} (e : Backend H V S)
    (cfg : Config) (r : RunResult) (hb : 1 ≤ cfg.nboost)
    (hd : 0 ≤ cfg.dbi_steps) (hr : main e cfg = .ok r) :
    r.energy = e.expectation
      (pureStates e cfg cfg.nboost.toNat).new_hamiltonian
      (e.zero_state cfg.nqubits) ∧
    r.fluctuations = e.energy_fluctuation
      (pureStates e cfg cfg.nboost.toNat).new_hamiltonian
      (e.zero_state cfg.nqubits) ∧
    (pureStates e cfg cfg.nboost.toNat).new_hamiltonian =
      (dbiLoop (e.dbi_step cfg.optimize_dbi_step) e.dbi_energy e.dbi_fluct
        cfg.dbi_steps.toNat
        (e.rotate_h
          (pureStates e cfg (cfg.nboost.toNat - 1)).new_hamiltonian
          (train_vqe e
            (pureStates e cfg (cfg.nboost.toNat - 1)).new_hamiltonian
            (pureStates e cfg
              (cfg.nboost.toNat - 1)).initial_parameters).vqe)).1 := by
  obtain ⟨k, hk⟩ : ∃ k, cfg.nboost.toNat = k + 1 :=
    ⟨cfg.nboost.toNat - 1, by omega⟩
  unfold main at hr
  split at hr
  · exact absurd hr (by simp)
  case _ s heq =>
    rw [statesAfter_eq_pure e cfg hd] at heq
    injection heq with heq
    subst heq
    unfold finalize at hr
    split at hr
    case _ dh pr hdh hpr =>
      injection hr with hr
      subst hr
      have hdb := (pureStates_dbiH e cfg k).1
      rw [hk, hdb] at hdh
      injection hdh with hdh
      subst hdh
      rw [hk]
      refine ⟨rfl, rfl, ?_⟩
      rw [Nat.add_sub_cancel]
      rfl
    case _ hno =>
      exact absurd hr (by simp)

theorem final_energy_from_zero_state_witness :
    testR.energy = testE.expectation
      (pureStates testE testCfg 1).new_hamiltonian (testE.zero_state 2) ∧
    testR.fluctuations = testE.energy_fluctuation
      (pureStates testE testCfg 1).new_hamiltonian (testE.zero_state 2) :=
  ⟨(final_energy_from_zero_state testE testCfg testR (by decide) (by decide)
      rfl).1,
   (final_energy_from_zero_state testE testCfg testR (by decide) (by decide)
      rfl).2.1⟩

/-- C7: a successful run's persisted record carries the configuration plus
the metadata scalars best_loss, true_ground_energy, success, message, energy
and fluctuations (fields of RunResult), and true_ground_energy is the minimum
eigenvalue of the original pre-rotation, pre-DBI Hamiltonian built from the
configured name and qubit count. -/
theorem metadata_true_ground_energy {H V S : Type} (e : Backend H V S)
    (cfg : Config) (r : RunResult) (hr : main e cfg = .ok r) :
    r.config = cfg ∧
    r.true_ground_energy =
      e.min_eigenvalue (e.build_hamiltonian cfg.hamiltonian cfg.nqubits) := by
  unfold main at hr
  split at hr
  · exact absurd hr (by simp)
  case _ s heq =>
    unfold finalize at hr
    split at hr
    case _ dh pr hdh hpr =>
      injection hr with hr
      subst hr
      exact ⟨rfl, rfl⟩
    case _ hno =>
      exact absurd hr (by simp)

theorem metadata_true_ground_energy_witness :
    testR.config = testCfg ∧
    testR.true_ground_energy = testE.min_eigenvalue
      (testE.build_hamiltonian testCfg.hamiltonian testCfg.nqubits) :=
  metadata_true_ground_energy testE testCfg testR rfl

theorem statesAfter_stepsize {H V S : Type} (e : Backend H V S)
    (cfg : Config) (t : ℚ) : ∀ b : ℕ,
    statesAfter e { cfg with stepsize := t } b = statesAfter e cfg b := by
  intro b
  induction b with
  | zero => rfl
  | succ k ih =>
      simp only [statesAfter, ih]
      rfl

/-- C9 counterexample: two runs whose configurations differ only in the
stepsize option do not produce identical persisted results, because the
metadata record echoes every configuration field (vars(args) in src/main.py
line 131), including the differing stepsize. -/
theorem stepsize_echoed_counterexample :
    ({ testCfg with stepsize := 1 } : Config).stepsize ≠ testCfg.stepsize ∧
    main testE { testCfg with stepsize := 1 } ≠ main testE testCfg := by
  refine ⟨by norm_num [testCfg], fun h => ?_⟩
  have h2 := congrArg (Except.map (fun r : RunResult => r.config.stepsize)) h
  rw [show Except.map (fun r : RunResult => r.config.stepsize)
        (main testE { testCfg with stepsize := 1 }) = .ok (1 : ℚ) from rfl,
      show Except.map (fun r : RunResult => r.config.stepsize)
        (main testE testCfg) = .ok (1 / 100 : ℚ) from rfl] at h2
  injection h2 with h3
  norm_num at h3

/-- C9 amended: the parsed stepsize is never read after argument parsing — in
particular it is never passed to the DBI step application, so the DBI step
size in use is independent of the option — and two runs whose configurations
differ only in stepsize agree on every computed and persisted result except
the verbatim echo of the configuration's stepsize field in the metadata
record: overwriting that single echoed field makes the two outputs equal. -/
theorem finalize_stepsize {H V S : Type} (e : Backend H V S) (cfg : Config)
    (t : ℚ) (s : LoopState H) :
    (finalize e { cfg with stepsize := t } s).map
      (fun r => { r with config := { r.config with stepsize := 0 } }) =
    (finalize e cfg s).map
      (fun r => { r with config := { r.config with stepsize := 0 } }) := by
  unfold finalize
  cases s.dbiH <;> cases s.opt_results <;> rfl

theorem stepsize_unused {H V S : Type} (e : Backend H V S) (cfg : Config)
    (s1 s2 : ℚ) :
    (main e { cfg with stepsize := s1 }).map
      (fun r => { r with config := { r.config with stepsize := 0 } }) =
    (main e { cfg with stepsize := s2 }).map
      (fun r => { r with config := { r.config with stepsize := 0 } }) := by
  have h1 : statesAfter e { cfg with stepsize := s1 }
      ({ cfg with stepsize := s1 } : Config).nboost.toNat =
      statesAfter e cfg cfg.nboost.toNat := statesAfter_stepsize e cfg s1 _
  have h2 : statesAfter e { cfg with stepsize := s2 }
      ({ cfg with stepsize := s2 } : Config).nboost.toNat =
      statesAfter e cfg cfg.nboost.toNat := statesAfter_stepsize e cfg s2 _
  unfold main
  rw [h1, h2]
  cases statesAfter e cfg cfg.nboost.toNat with
  | error err => rfl
  | ok s =>
      show (finalize e { cfg with stepsize := s1 } s).map
          (fun r => { r with config := { r.config with stepsize := 0 } }) =
        (finalize e { cfg with stepsize := s2 } s).map
          (fun r => { r with config := { r.config with stepsize := 0 } })
      rw [finalize_stepsize e cfg s1 s, finalize_stepsize e cfg s2 s]

end Boostvqe
